import Mathlib

/-!
Verification of the GreenCode_Checker pattern-based source analyzer.

This file shallow-embeds the analytic core of the repository:
`analyzer.py` (`CodeAnalyzer`, `CodeVisitor`), `security_checker.py`
(`SecurityChecker`) and `carbon_calculator.py` (`CarbonCalculator`).

Modelling conventions:
- A Python source string is modelled by `PySource`: the list of physical
  lines (`code.split('\n')`) together with the outcome of `ast.parse`
  (`none` models a `SyntaxError`, carrying the parser's message).
  The syntax tree itself is the inductive `PyNode`, which records exactly
  the node shapes the repository inspects (function defs, imports, loops,
  asserts, calls); every other node is `PyNode.other`.
- Python machine floats are modelled as exact rationals (`ℚ`); Python
  unbounded ints as `ℤ`/`ℕ`.
- `re.search` is modelled by an executable nondeterministic matcher over a
  small regex syntax `Rx` covering exactly the constructs appearing in the
  repository's patterns (literals, character classes, `*` over classes,
  alternation, `?`, `\b`).
- `sorted(..., key=lambda x: x['line'])` (a stable sort by the line key) is
  modelled by `List.insertionSort` with the `line ≤ line` preorder, which
  is stable for this comparator in exactly the same way.
- `ast.walk` (breadth-first traversal) is modelled by a fuelled
  breadth-first walk, with fuel `sizeOf`, always sufficient since the fuel
  is consumed once per tree level.
-/

namespace GreenCode

/-! ### String utilities (Python `str.strip`, `in`, `' '.join`, `startswith`) -/

/-- Python whitespace characters recognised by `str.strip()` and `\s`. -/
def pyIsSpace (c : Char) : Bool :=
  c = ' ' || c = '\t' || c = '\n' || c = '\r' || c = '\x0b' || c = '\x0c'

/-- Characters matched by the regex class `\w` (ASCII range). -/
def isWordChar (c : Char) : Bool :=
  c.isAlphanum || c = '_'

/-- `leadsWith n h` : `n` is an initial segment of `h` (used for Python
`str.startswith` and as the anchored step of substring search). -/
def leadsWith : List Char → List Char → Bool
  | [], _ => true
  | _ :: _, [] => false
  | a :: as, b :: bs => a = b && leadsWith as bs

/-- Python's `needle in hay` substring test. -/
def occursIn : List Char → List Char → Bool
  | n, [] => leadsWith n []
  | n, c :: t => leadsWith n (c :: t) || occursIn n t

/-- Python `str.strip()` : drop whitespace from both ends. -/
def pyStripL (l : List Char) : List Char :=
  ((l.dropWhile pyIsSpace).reverse.dropWhile pyIsSpace).reverse

def pyStrip (s : String) : String :=
  ⟨pyStripL s.data⟩

/-- One line counts toward `lines_of_code` when, after stripping, it is
nonempty and does not start with `#`
(`analyzer.py` line 21: `line.strip() and not line.strip().startswith('#')`). -/
def countsAsLoc (line : String) : Bool :=
  let t := pyStripL line.data
  (!t.isEmpty) && !(leadsWith ['#'] t)

/-- `lines_of_code` of `analyzer.py` line 21. -/
def linesOfCode (lines : List String) : Nat :=
  (lines.filter countsAsLoc).length

/-! ### A small executable regex engine

Covers exactly the constructs used by the repository's patterns:
character literals, character classes, concatenation, alternation,
`*` restricted to character classes (all starred subpatterns in the
source are classes: `\s*`, `[^"']*`, `[^)]*`, `.*`), and `\b`.
`{8,}` is expanded to eight mandatory copies followed by a starred class,
`s?` to an alternation with the empty pattern. -/

inductive Rx where
  | eps : Rx
  | lit : Char → Rx
  | cls : (Char → Bool) → Rx
  | seq : Rx → Rx → Rx
  | alt : Rx → Rx → Rx
  | clsStar : (Char → Bool) → Rx
  | wordB : Rx

/-- All ways for a starred character class to consume a prefix; each state
is (last consumed char, remainder). -/
def clsStarSplits (p : Char → Bool) : Option Char → List Char → List (Option Char × List Char)
  | prev, [] => [(prev, [])]
  | prev, c :: cs =>
    (prev, c :: cs) :: (if p c then clsStarSplits p (some c) cs else [])

def isWordOpt : Option Char → Bool
  | none => false
  | some c => isWordChar c

def isWordHead : List Char → Bool
  | [] => false
  | c :: _ => isWordChar c

/-- Nondeterministic matcher: `mAt r prev s` returns all states
(last consumed char, remainder) reachable by matching `r` at the start of
`s`, where `prev` is the character preceding `s` (for `\b`). -/
def Rx.mAt : Rx → Option Char → List Char → List (Option Char × List Char)
  | .eps, p, s => [(p, s)]
  | .lit _, _, [] => []
  | .lit c, _, d :: ds => if d = c then [(some d, ds)] else []
  | .cls _, _, [] => []
  | .cls f, _, d :: ds => if f d then [(some d, ds)] else []
  | .seq a b, p, s => (Rx.mAt a p s).flatMap (fun st => Rx.mAt b st.1 st.2)
  | .alt a b, p, s => Rx.mAt a p s ++ Rx.mAt b p s
  | .clsStar f, p, s => clsStarSplits f p s
  | .wordB, p, s => if isWordOpt p ≠ isWordHead s then [(p, s)] else []

/-- Try to match at every start position (tracking the preceding char). -/
def searchAux (r : Rx) : Option Char → List Char → Bool
  | p, [] => !(Rx.mAt r p []).isEmpty
  | p, c :: cs => !(Rx.mAt r p (c :: cs)).isEmpty || searchAux r (some c) cs

/-- `re.search(pattern, line)`, case-sensitive (no flags). -/
def rxSearch (r : Rx) (s : String) : Bool :=
  searchAux r none s.data

/-- `re.search(pattern, line, re.IGNORECASE)`: the repository's security
patterns contain only lowercase literals, so matching the lowercased line
against the lowercase pattern is equivalent. -/
def rxSearchCI (r : Rx) (s : String) : Bool :=
  searchAux r none (s.data.map Char.toLower)

/-- Concatenation of a list of patterns. -/
def rxCat (l : List Rx) : Rx :=
  l.foldr Rx.seq Rx.eps

/-- A string literal pattern. -/
def rxStr (s : String) : Rx :=
  rxCat (s.data.map Rx.lit)

/-- Alternation over a nonempty list (empty list yields an unmatchable
class; unused). -/
def rxAlts : List Rx → Rx
  | [] => Rx.cls (fun _ => false)
  | [r] => r
  | r :: rs => Rx.alt r (rxAlts rs)

/-- `\s*` -/
def rxWs : Rx := Rx.clsStar pyIsSpace

/-- `.` (any char except newline) -/
def rxDotCls : Char → Bool := fun c => c ≠ '\n'

/-- `["']` -/
def rxQuoteCls : Char → Bool := fun c => c = '"' || c = '\''

/-- `[^"']` -/
def rxNotQuoteCls : Char → Bool := fun c => !(c = '"' || c = '\'')

/-! ### Analyzer regex patterns (`analyzer.py` lines 53 and 62, case-sensitive) -/

/-- `range\s*\(\s*len\s*\(` -/
def rangeLenRx : Rx :=
  rxCat [rxStr "range", rxWs, Rx.lit '(', rxWs, rxStr "len", rxWs, Rx.lit '(']

/-- `list\s*\(\s*range\s*\(` -/
def listRangeRx : Rx :=
  rxCat [rxStr "list", rxWs, Rx.lit '(', rxWs, rxStr "range", rxWs, Rx.lit '(']

/-! ### Python AST model -/

/-- One `ast.alias` of an import statement: the imported name and the
optional `as` name. -/
structure ImportAlias where
  name : String
  asname : Option String
deriving DecidableEq, Repr

/-- The node shapes inspected by `CodeVisitor`, `_find_unused_imports` and
`_analyze_ast_security`. Every node carries its `lineno` and its child
nodes (statements and inspected expressions); nodes of kinds the
repository never dispatches on are `other`. `callName` is a `Call` whose
`func` is a `Name`; `callAttr` is a `Call` whose `func` is an `Attribute`
(with the receiver `Name` id when the receiver is a `Name`, and whether a
keyword `shell=<Constant True>` is present). -/
inductive PyNode where
  | functionDef : Nat → List PyNode → PyNode
  | asyncFunctionDef : Nat → List PyNode → PyNode
  | importNode : Nat → List ImportAlias → PyNode
  | importFrom : Nat → Option String → List ImportAlias → PyNode
  | whileNode : Nat → List PyNode → PyNode
  | forNode : Nat → List PyNode → PyNode
  | assertNode : Nat → List PyNode → PyNode
  | callName : Nat → String → List PyNode → PyNode
  | callAttr : Nat → Option String → String → Bool → List PyNode → PyNode
  | other : Nat → List PyNode → PyNode

/-- The child nodes of a node, in source order. -/
def PyNode.childList : PyNode → List PyNode
  | .functionDef _ b => b
  | .asyncFunctionDef _ b => b
  | .importNode _ _ => []
  | .importFrom _ _ _ => []
  | .whileNode _ b => b
  | .forNode _ b => b
  | .assertNode _ b => b
  | .callName _ _ b => b
  | .callAttr _ _ _ _ b => b
  | .other _ b => b

mutual

/-- Number of nodes in a tree (fuel bound for the breadth-first walk). -/
def nodeSize : PyNode → Nat
  | .functionDef _ b => 1 + listSize b
  | .asyncFunctionDef _ b => 1 + listSize b
  | .importNode _ _ => 1
  | .importFrom _ _ _ => 1
  | .whileNode _ b => 1 + listSize b
  | .forNode _ b => 1 + listSize b
  | .assertNode _ b => 1 + listSize b
  | .callName _ _ b => 1 + listSize b
  | .callAttr _ _ _ _ b => 1 + listSize b
  | .other _ b => 1 + listSize b

def listSize : List PyNode → Nat
  | [] => 0
  | n :: ns => nodeSize n + listSize ns

end

/-- Fuelled breadth-first node enumeration: each recursive step emits one
whole level, so fuel `≥` tree depth is sufficient. -/
def bfsWalkFuel : Nat → List PyNode → List PyNode
  | 0, _ => []
  | _, [] => []
  | fuel + 1, n :: ns => (n :: ns) ++ bfsWalkFuel fuel ((n :: ns).flatMap PyNode.childList)

/-- `ast.walk` over a module body (the `Module` node itself matches no
check in the repository, so enumerating from the body is equivalent).
The node count bounds the depth, so the fuel is always sufficient. -/
def bfsWalk (body : List PyNode) : List PyNode :=
  bfsWalkFuel (listSize body + 1) body

/-- A parsed-or-failed Python source: the physical lines
(`code.split('\n')`), the outcome of `ast.parse` (`none` models a
`SyntaxError`), and the parser's message in the failure case. -/
structure PySource where
  lines : List String
  parsed : Option (List PyNode)
  parseMsg : String

/-! ### `CodeVisitor` (`analyzer.py` lines 160-207) -/

structure VisitorState where
  function_count : Nat
  import_count : Nat
  while_loop_count : Nat
  for_loop_count : Nat
  while_loops : List Nat
  nested_depth : Nat
  current_depth : Nat
deriving DecidableEq, Repr

def initVisitor : VisitorState :=
  ⟨0, 0, 0, 0, [], 0, 0⟩

mutual

/-- `CodeVisitor.visit` on one node: the per-kind `visit_*` methods, with
`generic_visit` recursing into the children. -/
def visitNode (s : VisitorState) : PyNode → VisitorState
  | .functionDef _ body =>
    let s1 := { s with function_count := s.function_count + 1,
                       current_depth := s.current_depth + 1 }
    let s2 := { s1 with nested_depth := max s1.nested_depth s1.current_depth }
    let s3 := visitList s2 body
    { s3 with current_depth := s3.current_depth - 1 }
  | .asyncFunctionDef _ body =>
    let s1 := { s with function_count := s.function_count + 1,
                       current_depth := s.current_depth + 1 }
    let s2 := { s1 with nested_depth := max s1.nested_depth s1.current_depth }
    let s3 := visitList s2 body
    { s3 with current_depth := s3.current_depth - 1 }
  | .importNode _ names =>
    { s with import_count := s.import_count + names.length }
  | .importFrom _ _ names =>
    { s with import_count := s.import_count + names.length }
  | .whileNode lineno body =>
    let s1 := { s with while_loop_count := s.while_loop_count + 1,
                       while_loops := s.while_loops ++ [lineno],
                       current_depth := s.current_depth + 1 }
    let s2 := { s1 with nested_depth := max s1.nested_depth s1.current_depth }
    let s3 := visitList s2 body
    { s3 with current_depth := s3.current_depth - 1 }
  | .forNode _ body =>
    let s1 := { s with for_loop_count := s.for_loop_count + 1,
                       current_depth := s.current_depth + 1 }
    let s2 := { s1 with nested_depth := max s1.nested_depth s1.current_depth }
    let s3 := visitList s2 body
    { s3 with current_depth := s3.current_depth - 1 }
  | .assertNode _ body => visitList s body
  | .callName _ _ body => visitList s body
  | .callAttr _ _ _ _ body => visitList s body
  | .other _ body => visitList s body

/-- Visiting a list of sibling nodes in order. -/
def visitList (s : VisitorState) : List PyNode → VisitorState
  | [] => s
  | n :: ns => visitList (visitNode s n) ns

end

/-! ### Issues and the analyzer pipeline (`analyzer.py` lines 11-158) -/

inductive IssueType where
  | while_loop
  | inefficient_range_len
  | unnecessary_list_conversion
  | unused_import
deriving DecidableEq, Repr

structure Issue where
  type : IssueType
  line : Nat
  description : String
  suggestion : String
deriving DecidableEq, Repr

def mkWhileIssue (line : Nat) : Issue :=
  ⟨.while_loop, line,
   "While loop detected - consider if for-loop or list comprehension is more appropriate",
   "Replace with for-loop or list comprehension when possible"⟩

def mkRangeLenIssue (line : Nat) : Issue :=
  ⟨.inefficient_range_len, line,
   "Using range(len(...)) instead of direct iteration",
   "Consider using \"for item in collection:\" or enumerate()"⟩

def mkListConvIssue (line : Nat) : Issue :=
  ⟨.unnecessary_list_conversion, line,
   "Converting range to list unnecessarily",
   "Use range directly in most cases"⟩

def mkUnusedImportIssue (name : String) (line : Nat) : Issue :=
  ⟨.unused_import, line,
   "Import '" ++ name ++ "' appears to be unused",
   "Remove unused imports to reduce memory footprint"⟩

/-- `_find_inefficient_patterns`: scan the lines (1-indexed); a line
matching `range\s*\(\s*len\s*\(` emits an `inefficient_range_len` issue,
a line matching `list\s*\(\s*range\s*\(` emits an
`unnecessary_list_conversion` issue (both can fire on one line, in that
order). -/
def scanIneffLines : Nat → List String → List Issue
  | _, [] => []
  | i, l :: ls =>
    (if rxSearch rangeLenRx l then [mkRangeLenIssue i] else []) ++
    (if rxSearch listRangeRx l then [mkListConvIssue i] else []) ++
    scanIneffLines (i + 1) ls

def find_inefficient_patterns (lines : List String) : List Issue :=
  scanIneffLines 1 lines

/-- One record of the `imports` list built by `_find_unused_imports`
(lines 75-93): name, `as`-alias, declaration line, and whether it came
from an `ast.ImportFrom` (with its module). -/
structure ImportEntry where
  name : String
  importAlias : Option String
  line : Nat
  isFrom : Bool
  module : Option String
deriving DecidableEq, Repr

def entriesOfNode : PyNode → List ImportEntry
  | .importNode ln names => names.map (fun a => ⟨a.name, a.asname, ln, false, none⟩)
  | .importFrom ln mod names => names.map (fun a => ⟨a.name, a.asname, ln, true, mod⟩)
  | _ => []

/-- The `for node in ast.walk(tree)` import collection of
`_find_unused_imports` (lines 76-93). -/
def collectImports (tree : List PyNode) : List ImportEntry :=
  (bfsWalk tree).flatMap entriesOfNode

/-- `imp['alias'] if imp['alias'] else imp['name']` (Python truthiness:
`None` and the empty string both fall back to the bare name). -/
def effName (imp : ImportEntry) : String :=
  match imp.importAlias with
  | some a => if a = "" then imp.name else a
  | none => imp.name

/-- `' '.join(code.split('\n')[1:])` (line 97): the usage-search text,
with the first physical line removed unconditionally. -/
def codeBody (lines : List String) : String :=
  String.intercalate " " (lines.drop 1)

/-- `_find_unused_imports` (lines 72-109): flag each collected import
whose effective name is truthy and does not occur as a substring of
`codeBody`. -/
def find_unused_imports (lines : List String) (tree : List PyNode) : List Issue :=
  let body := codeBody lines
  (collectImports tree).filterMap (fun imp =>
    let n := effName imp
    if n ≠ "" && !(occursIn n.data body.data) then
      some (mkUnusedImportIssue n imp.line)
    else
      none)

/-- The sort key relation of `sorted(issues, key=lambda x: x['line'])`. -/
def lineLe (a b : Issue) : Prop :=
  a.line ≤ b.line

instance : DecidableRel lineLe := fun a b => Nat.decLe a.line b.line

instance : IsTotal Issue lineLe := ⟨fun a b => Nat.le_total a.line b.line⟩

instance : IsTrans Issue lineLe := ⟨fun _ _ _ => Nat.le_trans⟩

/-- `_compile_issues` (lines 111-130): while-loop issues, then the
inefficiency patterns, then the unused imports, stably sorted ascending
by line (`sorted` with the `line` key is the stable sort by `lineLe`,
which `List.insertionSort lineLe` computes). -/
def compile_issues (whileLoops : List Nat) (patterns unused : List Issue) : List Issue :=
  List.insertionSort lineLe (whileLoops.map mkWhileIssue ++ patterns ++ unused)

/-- `_calculate_complexity` (lines 132-139). -/
def calculate_complexity (v : VisitorState) : Nat :=
  v.while_loop_count * 3 + v.for_loop_count * 1 + v.function_count * 2 + v.nested_depth * 2

/-- The results dict of `CodeAnalyzer.analyze` (lines 32-42). All keys are
always present. -/
structure AnalysisResult where
  lines_of_code : Nat
  function_count : Nat
  import_count : Nat
  while_loop_count : Nat
  for_loop_count : Nat
  inefficient_patterns_count : Nat
  unused_imports_count : Nat
  issues : List Issue
  complexity_score : Nat
deriving DecidableEq, Repr

/-- `CodeAnalyzer.analyze` (lines 11-44): re-raises the parser's
`SyntaxError` with a prefixed message, otherwise assembles the result. -/
def analyze (src : PySource) : Except String AnalysisResult :=
  match src.parsed with
  | none => .error ("Invalid Python syntax: " ++ src.parseMsg)
  | some tree =>
    let v := visitList initVisitor tree
    let patterns := find_inefficient_patterns src.lines
    let unused := find_unused_imports src.lines tree
    .ok
      { lines_of_code := linesOfCode src.lines
        function_count := v.function_count
        import_count := v.import_count
        while_loop_count := v.while_loop_count
        for_loop_count := v.for_loop_count
        inefficient_patterns_count := patterns.length
        unused_imports_count := unused.length
        issues := compile_issues v.while_loops patterns unused
        complexity_score := calculate_complexity v }

/-- `calculate_green_score` (lines 141-158). -/
def calculate_green_score (r : AnalysisResult) : Int :=
  let base_score : Int := 100
  let d1 : Int := (r.while_loop_count : Int) * 15
  let d2 : Int := d1 + (r.unused_imports_count : Int) * 10
  let d3 : Int := d2 + (r.inefficient_patterns_count : Int) * 12
  let complexity : Int := (r.complexity_score : Int)
  let deductions : Int := d3 + (if complexity > 20 then (complexity - 20) * 2 else 0)
  let green_score := max 0 (base_score - deductions)
  min 100 green_score

/-! ### `SecurityChecker` (`security_checker.py`) -/

inductive Severity where
  | HIGH
  | MEDIUM
  | LOW
deriving DecidableEq, Repr

/-- One entry of the `security_issues` list. Regex-detected issues carry a
`code_snippet` (the stripped line); the AST-detected ones do not
(`security_checker.py` lines 81-89 vs 122-129). -/
structure SecIssue where
  subtype : String
  line : Nat
  severity : Severity
  description : String
  suggestion : String
  code_snippet : Option String
deriving DecidableEq, Repr

/-- One entry of the `self.security_patterns` dict (lines 9-70). -/
structure SecPattern where
  subtype : String
  rx : Rx
  severity : Severity
  description : String
  suggestion : String

/-- The `security_patterns` dict in insertion (= iteration) order. -/
def securityPatterns : List SecPattern :=
  [ { subtype := "eval_usage"
      rx := rxCat [Rx.wordB, rxStr "eval", rxWs, Rx.lit '(']
      severity := .HIGH
      description := "Use of eval() function detected - major security risk"
      suggestion := "Avoid eval(). Use literal_eval() for safe evaluation or ast.parse() for code analysis" }
  , { subtype := "exec_usage"
      rx := rxCat [Rx.wordB, rxStr "exec", rxWs, Rx.lit '(']
      severity := .HIGH
      description := "Use of exec() function detected - code injection risk"
      suggestion := "Avoid exec(). Consider safer alternatives like importlib for dynamic imports" }
  , { subtype := "hardcoded_password"
      rx := rxCat [rxAlts [rxStr "password", rxStr "passwd", rxStr "pwd"], rxWs, Rx.lit '=',
                   rxWs, Rx.cls rxQuoteCls, Rx.cls rxNotQuoteCls, Rx.clsStar rxNotQuoteCls,
                   Rx.cls rxQuoteCls]
      severity := .HIGH
      description := "Hardcoded password detected"
      suggestion := "Use environment variables or secure configuration files for credentials" }
  , { subtype := "hardcoded_secret"
      rx := rxCat ([rxAlts [rxStr "secret", rxStr "token", rxStr "key", rxStr "api_key"],
                    rxWs, Rx.lit '=', rxWs, Rx.cls rxQuoteCls] ++
                   List.replicate 8 (Rx.cls rxNotQuoteCls) ++
                   [Rx.clsStar rxNotQuoteCls, Rx.cls rxQuoteCls])
      severity := .HIGH
      description := "Hardcoded secret/token detected"
      suggestion := "Store secrets in environment variables or secure vault systems" }
  , { subtype := "sql_injection_risk"
      rx := rxCat [Rx.lit '.', rxStr "execute", rxWs, Rx.lit '(', rxWs, Rx.cls rxQuoteCls,
                   Rx.clsStar rxDotCls, Rx.lit '%', Rx.clsStar rxDotCls, Rx.cls rxQuoteCls]
      severity := .MEDIUM
      description := "Potential SQL injection vulnerability"
      suggestion := "Use parameterized queries instead of string formatting in SQL" }
  , { subtype := "shell_injection"
      rx := rxCat [rxAlts [rxStr "os.system", rxStr "subprocess.call", rxStr "subprocess.run"],
                   rxWs, Rx.lit '(', Rx.clsStar (fun c => c ≠ ')'), Rx.lit '+']
      severity := .HIGH
      description := "Potential shell injection via command concatenation"
      suggestion := "Use subprocess with list arguments instead of string concatenation" }
  , { subtype := "pickle_usage"
      rx := rxCat [Rx.wordB, rxStr "pickle.load", Rx.alt (Rx.lit 's') Rx.eps, rxWs, Rx.lit '(']
      severity := .MEDIUM
      description := "Pickle deserialization can be unsafe with untrusted data"
      suggestion := "Use JSON or other safe serialization formats for untrusted data" }
  , { subtype := "temp_file_unsafe"
      rx := rxCat [rxStr "open", rxWs, Rx.lit '(', rxWs, Rx.cls rxQuoteCls, rxStr "/tmp/"]
      severity := .LOW
      description := "Unsafe temporary file usage"
      suggestion := "Use tempfile module for secure temporary file creation" }
  , { subtype := "weak_random"
      rx := rxCat [rxStr "random.", rxAlts [rxStr "random", rxStr "randint", rxStr "choice"]]
      severity := .LOW
      description := "Using weak random number generator for security purposes"
      suggestion := "Use secrets module for cryptographically strong random numbers" }
  , { subtype := "debug_mode"
      rx := rxCat [rxStr "debug", rxWs, Rx.lit '=', rxWs, rxStr "true"]
      severity := .MEDIUM
      description := "Debug mode enabled - may expose sensitive information"
      suggestion := "Disable debug mode in production environments" } ]

/-- The pattern-based detection of `analyze_security` on one line
(lines 78-89): each matching pattern, in dict order, yields one issue. -/
def secScanLine (lineNum : Nat) (line : String) : List SecIssue :=
  securityPatterns.filterMap (fun p =>
    if rxSearchCI p.rx line then
      some ⟨p.subtype, lineNum, p.severity, p.description, p.suggestion, some (pyStrip line)⟩
    else
      none)

/-- The pattern-based detection over all lines (1-indexed). -/
def secScan : Nat → List String → List SecIssue
  | _, [] => []
  | i, l :: ls => secScanLine i l ++ secScan (i + 1) ls

/-- The per-node dispatch of `_analyze_ast_security` (lines 116-157). -/
def nodeSecIssues : PyNode → List SecIssue
  | .callName ln f _ =>
    if f = "eval" || f = "exec" || f = "compile" then
      [⟨"dangerous_function_" ++ f, ln, .HIGH,
        "Dangerous function " ++ f ++ "() usage detected",
        "Avoid using " ++ f ++ "() as it can execute arbitrary code", none⟩]
    else
      []
  | .callAttr ln recv _ shellTrue _ =>
    if recv = some "subprocess" && shellTrue then
      [⟨"subprocess_shell_true", ln, .HIGH,
        "subprocess called with shell=True - command injection risk",
        "Use shell=False and pass command as list of arguments", none⟩]
    else
      []
  | .assertNode ln _ =>
    [⟨"assert_statement", ln, .LOW,
      "Assert statement used - can be disabled with -O flag",
      "Use proper exception handling instead of assert for security checks", none⟩]
  | _ => []

/-- `_analyze_ast_security` (lines 112-159): dispatch over `ast.walk`. -/
def analyze_ast_security (tree : List PyNode) : List SecIssue :=
  (bfsWalk tree).flatMap nodeSecIssues

/-- `_calculate_security_score` (lines 161-174): start at 100, subtract
25/10/5 per HIGH/MEDIUM/LOW issue, floor at 0. -/
def calculate_security_score (issues : List SecIssue) : Int :=
  let base_score : Int :=
    issues.foldl (fun sc i =>
      match i.severity with
      | .HIGH => sc - 25
      | .MEDIUM => sc - 10
      | .LOW => sc - 5) 100
  max 0 base_score

/-- `_get_risk_level` (lines 176-185). -/
def get_risk_level (security_score : Int) : String :=
  if security_score ≥ 90 then "LOW"
  else if security_score ≥ 70 then "MEDIUM"
  else if security_score ≥ 50 then "HIGH"
  else "CRITICAL"

/-- The result dict of `analyze_security` (lines 102-110). -/
structure SecurityAnalysisResult where
  security_issues : List SecIssue
  security_score : Int
  risk_level : String
  total_vulnerabilities : Nat
  high_risk_count : Nat
  medium_risk_count : Nat
  low_risk_count : Nat
deriving DecidableEq, Repr

/-- Assembling the result dict from the collected issues (lines 99-110). -/
def buildSecurityResult (issues : List SecIssue) : SecurityAnalysisResult :=
  { security_issues := issues
    security_score := calculate_security_score issues
    risk_level := get_risk_level (calculate_security_score issues)
    total_vulnerabilities := issues.length
    high_risk_count := (issues.filter (fun i => i.severity = Severity.HIGH)).length
    medium_risk_count := (issues.filter (fun i => i.severity = Severity.MEDIUM)).length
    low_risk_count := (issues.filter (fun i => i.severity = Severity.LOW)).length }

/-- `SecurityChecker.analyze_security` (lines 72-110): regex scan of every
line, then the AST checks; a parse failure only skips the AST checks
(`except SyntaxError: pass`), it never propagates. -/
def analyze_security (src : PySource) : SecurityAnalysisResult :=
  let regexIssues := secScan 1 src.lines
  let astIssues :=
    match src.parsed with
    | some tree => analyze_ast_security tree
    | none => []
  buildSecurityResult (regexIssues ++ astIssues)

/-! ### `CarbonCalculator` (`carbon_calculator.py`); floats modelled as `ℚ` -/

/-- The `energy_costs` table entries used by the calculator (lines 9-18). -/
def cost_function_call : ℚ := 0.5

def cost_while_loop_iteration : ℚ := 2.0

def cost_for_loop_iteration : ℚ := 1.5

def cost_import_statement : ℚ := 0.3

/-- The return value of `calculate_energy_consumption` (lines 54-68); the
`energy_breakdown` dict repeats the five component fields. -/
structure EnergyEstimate where
  total_energy_uj : ℚ
  base_energy : ℚ
  function_energy : ℚ
  loop_energy : ℚ
  import_energy : ℚ
  inefficiency_penalty : ℚ
deriving DecidableEq, Repr

/-- `calculate_energy_consumption` (lines 26-68). The issue loop adds 5.0
per `while_loop` issue, 2.0 per `inefficient_range_len` issue, 0.5 per
`unused_import` issue, and nothing for any other type (the `if/elif`
chain has no branch for `unnecessary_list_conversion`). -/
def calculate_energy_consumption (r : AnalysisResult) : EnergyEstimate :=
  let base_energy : ℚ := (r.lines_of_code : ℚ) * 0.1
  let function_energy : ℚ := (r.function_count : ℚ) * cost_function_call
  let while_loop_energy : ℚ := (r.while_loop_count : ℚ) * cost_while_loop_iteration * 10
  let for_loop_energy : ℚ := (r.for_loop_count : ℚ) * cost_for_loop_iteration * 10
  let import_energy : ℚ := (r.import_count : ℚ) * cost_import_statement
  let inefficiency_energy : ℚ :=
    r.issues.foldl (fun acc i =>
      match i.type with
      | .while_loop => acc + 5.0
      | .inefficient_range_len => acc + 2.0
      | .unused_import => acc + 0.5
      | .unnecessary_list_conversion => acc) 0
  let total_energy := base_energy + function_energy + while_loop_energy +
                      for_loop_energy + import_energy + inefficiency_energy
  { total_energy_uj := total_energy
    base_energy := base_energy
    function_energy := function_energy
    loop_energy := while_loop_energy + for_loop_energy
    import_energy := import_energy
    inefficiency_penalty := inefficiency_energy }

/-- `get_efficiency_rating` (lines 147-170). The `lines_of_code` key is
always present in an analysis result (the dict-lookup default `1` applies
only to an absent key), so with `lines_of_code = 0` the Python division
`total_energy_uj / lines_of_code` raises `ZeroDivisionError`; the
`Except.error` branch models that exception. -/
def get_efficiency_rating (r : AnalysisResult) : Except String String :=
  let energy := calculate_energy_consumption r
  let lines_of_code := r.lines_of_code
  if lines_of_code = 0 then
    .error "ZeroDivisionError: division by zero"
  else
    let energy_per_line : ℚ := energy.total_energy_uj / (lines_of_code : ℚ)
    .ok
      (if energy_per_line ≤ 0.2 then "A++ (Extremely Efficient)"
       else if energy_per_line ≤ 0.5 then "A+ (Very Efficient)"
       else if energy_per_line ≤ 1.0 then "A (Efficient)"
       else if energy_per_line ≤ 2.0 then "B (Moderately Efficient)"
       else if energy_per_line ≤ 5.0 then "C (Below Average)"
       else if energy_per_line ≤ 10.0 then "D (Inefficient)"
       else "F (Very Inefficient)")

/-! ### Statement-side definitions used by the theorems -/

/-- The merge category of an issue in `_compile_issues`: while-loop issues
are appended first, then the two inefficiency-pattern kinds, then the
unused imports. -/
def categoryRank (i : Issue) : Nat :=
  match i.type with
  | .while_loop => 0
  | .inefficient_range_len => 1
  | .unnecessary_list_conversion => 1
  | .unused_import => 2

/-- The tie relation of the stable sort: issues on the same line keep the
merge-category order. -/
def tieRank (a b : Issue) : Prop :=
  a.line = b.line → categoryRank a ≤ categoryRank b

/-- The per-issue deduction of `_calculate_security_score`. -/
def sevPenalty (i : SecIssue) : Int :=
  match i.severity with
  | .HIGH => 25
  | .MEDIUM => 10
  | .LOW => 5

/-- The per-issue energy penalty actually applied by
`calculate_energy_consumption` (note: `unnecessary_list_conversion`
issues get no penalty, the `if/elif` chain has no branch for them). -/
def issuePenalty (i : Issue) : ℚ :=
  match i.type with
  | .while_loop => 5
  | .inefficient_range_len => 2
  | .unnecessary_list_conversion => 0
  | .unused_import => 0.5

/-- Modelled from the claim's words, for comparison with
`calculate_energy_consumption`: the claimed flat per-issue penalty,
2.0 for EVERY inefficiency-pattern issue (both kinds). -/
def claimEnergyPenalty (i : Issue) : ℚ :=
  match i.type with
  | .while_loop => 5
  | .inefficient_range_len => 2
  | .unnecessary_list_conversion => 2
  | .unused_import => 0.5

/-- Modelled from the claim's words: the claimed total energy formula. -/
def claimEnergyTotal (r : AnalysisResult) : ℚ :=
  (r.lines_of_code : ℚ) * 0.1 + (r.function_count : ℚ) * 0.5 +
  (r.while_loop_count : ℚ) * 2.0 * 10 + (r.for_loop_count : ℚ) * 1.5 * 10 +
  (r.import_count : ℚ) * 0.3 + (r.issues.map claimEnergyPenalty).sum

/-! ### Concrete sources and their analysis results (used by witnesses and
counterexamples; the trees are the ASTs `ast.parse` yields for the lines) -/

/-- `"i = 0\nwhile i < len(x):\n    i += 1"` -/
def srcA : PySource :=
  ⟨["i = 0", "while i < len(x):", "    i += 1"],
   some [.other 1 [], .whileNode 2 [.other 3 []]], ""⟩

def resA : AnalysisResult :=
  ⟨3, 0, 0, 1, 0, 0, 0, [mkWhileIssue 2], 5⟩

/-- A single line carrying both a while loop and a `range(len(` pattern:
two issues tie on line 1. -/
def srcB : PySource :=
  ⟨["while i < range(len(x)):"], some [.whileNode 1 []], ""⟩

def resB : AnalysisResult :=
  ⟨1, 0, 0, 1, 0, 1, 0, [mkWhileIssue 1, mkRangeLenIssue 1], 5⟩

/-- `"def f(): pass"` -/
def treeE : List PyNode :=
  [.functionDef 1 [.other 1 []]]

def srcE : PySource :=
  ⟨["def f(): pass"], some treeE, ""⟩

def resE : AnalysisResult :=
  ⟨1, 1, 0, 0, 0, 0, 0, [], 4⟩

/-- Eleven one-line `def`s: no issues, no loops, no imports, yet
`complexity_score = 11*2 + 1*2 = 24 > 20`. -/
def srcNested : PySource :=
  ⟨["def f1(): pass", "def f2(): pass", "def f3(): pass", "def f4(): pass",
    "def f5(): pass", "def f6(): pass", "def f7(): pass", "def f8(): pass",
    "def f9(): pass", "def f10(): pass", "def f11(): pass"],
   some [.functionDef 1 [.other 1 []], .functionDef 2 [.other 2 []],
         .functionDef 3 [.other 3 []], .functionDef 4 [.other 4 []],
         .functionDef 5 [.other 5 []], .functionDef 6 [.other 6 []],
         .functionDef 7 [.other 7 []], .functionDef 8 [.other 8 []],
         .functionDef 9 [.other 9 []], .functionDef 10 [.other 10 []],
         .functionDef 11 [.other 11 []]], ""⟩

def resNested : AnalysisResult :=
  ⟨11, 11, 0, 0, 0, 0, 0, [], 24⟩

/-- The empty source: `"".split('\n') == ['']`, `ast.parse("")` gives an
empty module body. -/
def srcEmpty : PySource :=
  ⟨[""], some [], ""⟩

def resEmpty : AnalysisResult :=
  ⟨0, 0, 0, 0, 0, 0, 0, [], 0⟩

/-- `"x = list(range(10))"`: one `unnecessary_list_conversion` issue. -/
def srcListConv : PySource :=
  ⟨["x = list(range(10))"], some [.other 1 []], ""⟩

def resListConv : AnalysisResult :=
  ⟨1, 0, 0, 0, 0, 1, 0, [mkListConvIssue 1], 0⟩

/-- `"eval(user_input)"`: module body `[Expr(Call(Name 'eval', [Name 'user_input']))]`. -/
def srcEval : PySource :=
  ⟨["eval(user_input)"], some [.other 1 [.callName 1 "eval" [.other 1 []]]], ""⟩

/-- `"import os\nprint('hi')\n"` (Scenario C). -/
def linesOs : List String :=
  ["import os", "print('hi')", ""]

def treeOs : List PyNode :=
  [.importNode 1 [⟨"os", none⟩], .other 2 []]

def impOs : ImportEntry :=
  ⟨"os", none, 1, false, none⟩

/-! ### Helper lemmas -/

theorem foldl_sec_penalty (l : List SecIssue) (a : Int) :
    l.foldl (fun sc i =>
      match i.severity with
      | .HIGH => sc - 25
      | .MEDIUM => sc - 10
      | .LOW => sc - 5) a = a - (l.map sevPenalty).sum := by
  induction l generalizing a with
  | nil => simp
  | cons i t ih =>
    cases hs : i.severity <;> simp [ih, sevPenalty, hs] <;> ring

theorem sevPenalty_nonneg (i : SecIssue) : 0 ≤ sevPenalty i := by
  cases hs : i.severity <;> simp [sevPenalty, hs]

theorem sum_sevPenalty_nonneg (l : List SecIssue) : 0 ≤ (l.map sevPenalty).sum := by
  induction l with
  | nil => simp
  | cons i t ih => simpa using add_nonneg (sevPenalty_nonneg i) ih

theorem foldl_issuePenalty (l : List Issue) (a : ℚ) :
    l.foldl (fun acc i =>
      match i.type with
      | .while_loop => acc + 5.0
      | .inefficient_range_len => acc + 2.0
      | .unused_import => acc + 0.5
      | .unnecessary_list_conversion => acc) a = a + (l.map issuePenalty).sum := by
  induction l generalizing a with
  | nil => simp
  | cons i t ih =>
    cases ht : i.type <;> simp [ih, issuePenalty, ht] <;> ring

mutual

/-- `CodeVisitor` invariant: `visit_While` is the only method touching
`while_loop_count`/`while_loops`, and it bumps both together. -/
theorem visitNode_while_inv (s : VisitorState) (n : PyNode)
    (h : s.while_loop_count = s.while_loops.length) :
    (visitNode s n).while_loop_count = (visitNode s n).while_loops.length := by
  cases n with
  | functionDef ln body =>
    simp only [visitNode]
    exact visitList_while_inv _ body (by simpa using h)
  | asyncFunctionDef ln body =>
    simp only [visitNode]
    exact visitList_while_inv _ body (by simpa using h)
  | importNode ln names => simpa only [visitNode] using h
  | importFrom ln m names => simpa only [visitNode] using h
  | whileNode ln body =>
    simp only [visitNode]
    exact visitList_while_inv _ body (by simp [h])
  | forNode ln body =>
    simp only [visitNode]
    exact visitList_while_inv _ body (by simpa using h)
  | assertNode ln body => simpa only [visitNode] using visitList_while_inv s body h
  | callName ln f body => simpa only [visitNode] using visitList_while_inv s body h
  | callAttr ln recv attr sh body =>
    simpa only [visitNode] using visitList_while_inv s body h
  | other ln body => simpa only [visitNode] using visitList_while_inv s body h

theorem visitList_while_inv (s : VisitorState) (l : List PyNode)
    (h : s.while_loop_count = s.while_loops.length) :
    (visitList s l).while_loop_count = (visitList s l).while_loops.length := by
  cases l with
  | nil => simpa only [visitList] using h
  | cons n ns =>
    simpa only [visitList] using
      visitList_while_inv (visitNode s n) ns (visitNode_while_inv s n h)

end

theorem compile_issues_length (w : List Nat) (p u : List Issue) :
    (compile_issues w p u).length = w.length + p.length + u.length := by
  simp only [compile_issues, List.length_insertionSort, List.length_append,
    List.length_map]

/-- Inserting into a `tieRank`-pairwise list keeps it pairwise: the element
goes after every strictly-smaller line and before every `≥` line, and on
equal lines `tieRank x y` is supplied by the hypothesis. -/
theorem tieRank_orderedInsert (x : Issue) (l : List Issue)
    (hl : l.Pairwise tieRank) (hx : ∀ y ∈ l, tieRank x y) :
    (List.orderedInsert lineLe x l).Pairwise tieRank := by
  induction l with
  | nil => simp [List.orderedInsert]
  | cons b t ih =>
    rw [List.orderedInsert]
    rcases List.pairwise_cons.mp hl with ⟨hb, ht⟩
    by_cases hle : lineLe x b
    · rw [if_pos hle]
      exact List.Pairwise.cons hx hl
    · rw [if_neg hle]
      refine List.Pairwise.cons ?_ (ih ht (fun y hy => hx y (List.mem_cons_of_mem _ hy)))
      intro y hy
      rcases (List.mem_orderedInsert lineLe).mp hy with hEq | hyt
      · intro heq
        exfalso
        rw [hEq] at heq
        apply hle
        show x.line ≤ b.line
        omega
      · exact hb y hyt

/-- Stability of the sort in `_compile_issues`: a `tieRank`-pairwise input
stays `tieRank`-pairwise after insertion sort by `line`. -/
theorem tieRank_insertionSort (l : List Issue) (hl : l.Pairwise tieRank) :
    (List.insertionSort lineLe l).Pairwise tieRank := by
  induction l with
  | nil => simp
  | cons a t ih =>
    rw [List.insertionSort]
    rcases List.pairwise_cons.mp hl with ⟨ha, ht⟩
    exact tieRank_orderedInsert a _ (ih ht)
      (fun y hy => ha y ((List.mem_insertionSort lineLe).mp hy))

theorem find_inefficient_rank (lines : List String) :
    ∀ i ∈ find_inefficient_patterns lines, categoryRank i = 1 := by
  have : ∀ (k : Nat) (ls : List String) (i : Issue),
      i ∈ scanIneffLines k ls → categoryRank i = 1 := by
    intro k ls
    induction ls generalizing k with
    | nil => simp [scanIneffLines]
    | cons l t ih =>
      intro i hi
      simp only [scanIneffLines, List.mem_append] at hi
      rcases hi with (h1 | h2) | h3
      · split at h1
        · simp only [List.mem_singleton] at h1
          subst h1
          rfl
        · simp at h1
      · split at h2
        · simp only [List.mem_singleton] at h2
          subst h2
          rfl
        · simp at h2
      · exact ih (k + 1) i h3
  exact this 1 lines

theorem find_unused_rank (lines : List String) (tree : List PyNode) :
    ∀ i ∈ find_unused_imports lines tree, categoryRank i = 2 := by
  intro i hi
  simp only [find_unused_imports, List.mem_filterMap] at hi
  rcases hi with ⟨imp, _, heq⟩
  split at heq
  · simp only [Option.some.injEq] at heq
    subst heq
    rfl
  · cases heq

theorem pairwise_rank_le_of_const (c : Nat) (l : List Issue)
    (h : ∀ i ∈ l, categoryRank i = c) :
    l.Pairwise (fun a b => categoryRank a ≤ categoryRank b) := by
  induction l with
  | nil => exact List.Pairwise.nil
  | cons a t ih =>
    refine List.Pairwise.cons ?_ (ih fun i hi => h i (List.mem_cons_of_mem _ hi))
    intro b hb
    rw [h a (List.mem_cons_self _ _), h b (List.mem_cons_of_mem _ hb)]

theorem pairwise_and_imp {R S T : Issue → Issue → Prop} {l : List Issue}
    (hR : l.Pairwise R) (hS : l.Pairwise S) (himp : ∀ a b, R a b → S a b → T a b) :
    l.Pairwise T := by
  induction hR with
  | nil => exact List.Pairwise.nil
  | cons ha _ ih =>
    rcases List.pairwise_cons.mp hS with ⟨hsa, hst⟩
    exact List.Pairwise.cons (fun b hb => himp _ _ (ha b hb) (hsa b hb)) (ih hst)

/-- The merged-then-stably-sorted issue list is sorted by line with
category order on ties. -/
theorem compile_issues_sorted_ties (w : List Nat) (p u : List Issue)
    (hp : ∀ i ∈ p, categoryRank i = 1) (hu : ∀ i ∈ u, categoryRank i = 2) :
    (compile_issues w p u).Pairwise
      (fun a b => a.line < b.line ∨ (a.line = b.line ∧ categoryRank a ≤ categoryRank b)) := by
  have hw : ∀ i ∈ w.map mkWhileIssue, categoryRank i = 0 := by
    intro i hi
    rcases List.mem_map.mp hi with ⟨ln, _, rfl⟩
    rfl
  have hrank : (w.map mkWhileIssue ++ p ++ u).Pairwise
      (fun a b => categoryRank a ≤ categoryRank b) := by
    rw [List.pairwise_append]
    refine ⟨?_, pairwise_rank_le_of_const 2 u hu, ?_⟩
    · rw [List.pairwise_append]
      refine ⟨pairwise_rank_le_of_const 0 _ hw, pairwise_rank_le_of_const 1 p hp, ?_⟩
      intro a ha b hb
      rw [hw a ha, hp b hb]
      omega
    · intro a ha b hb
      rw [List.mem_append] at ha
      rcases ha with ha | ha
      · rw [hw a ha, hu b hb]
        omega
      · rw [hp a ha, hu b hb]
        omega
  have htie : (w.map mkWhileIssue ++ p ++ u).Pairwise tieRank :=
    hrank.imp (fun {a b} h => show tieRank a b from fun _ => h)
  have hsorted : (compile_issues w p u).Pairwise lineLe :=
    List.sorted_insertionSort lineLe _
  have htie2 : (compile_issues w p u).Pairwise tieRank :=
    tieRank_insertionSort _ htie
  refine pairwise_and_imp hsorted htie2 (fun a b hle ht => ?_)
  have hle' : a.line ≤ b.line := hle
  rcases Nat.lt_or_ge a.line b.line with hlt | hge
  · exact Or.inl hlt
  · have heq : a.line = b.line := Nat.le_antisymm hle' hge
    exact Or.inr ⟨heq, ht heq⟩

/-- The description of an unused-import issue determines the import name. -/
theorem mkUnusedImportIssue_inj {n m : String} {ln lm : Nat}
    (h : mkUnusedImportIssue n ln = mkUnusedImportIssue m lm) : n = m := by
  have hd : "Import '" ++ n ++ "' appears to be unused" =
      "Import '" ++ m ++ "' appears to be unused" := congrArg Issue.description h
  have hdata : ("Import '").data ++ n.data ++ ("' appears to be unused").data =
      ("Import '").data ++ m.data ++ ("' appears to be unused").data := by
    have h2 := congrArg String.data hd
    simpa [String.data_append] using h2
  rw [List.append_assoc, List.append_assoc] at hdata
  exact String.ext (List.append_cancel_right (List.append_cancel_left hdata))

/-- An empty needle occurs in every haystack. -/
theorem occursIn_nil (hay : List Char) : occursIn [] hay = true := by
  cases hay <;> simp [occursIn, leadsWith]

/-! ### The claims -/

/-- C3: for every `AnalysisResult` (arbitrarily large counts),
`calculate_green_score` returns `100` minus
`while_loop_count*15 + unused_imports_count*10 + inefficient_patterns_count*12`,
minus an additional `(complexity_score - 20)*2` exactly when
`complexity_score > 20`, clamped floor-0-then-ceiling-100; in particular
the output is always within `[0, 100]`. -/
theorem c3_green_score_formula_and_bounds (r : AnalysisResult) :
    calculate_green_score r =
      min 100 (max 0 (100 -
        ((r.while_loop_count : Int) * 15 + (r.unused_imports_count : Int) * 10 +
          (r.inefficient_patterns_count : Int) * 12 +
          (if (r.complexity_score : Int) > 20 then ((r.complexity_score : Int) - 20) * 2 else 0)))) ∧
    0 ≤ calculate_green_score r ∧ calculate_green_score r ≤ 100 := by
  refine ⟨rfl, ?_, ?_⟩ <;>
    (simp only [calculate_green_score]; split_ifs <;> omega)

/-- C4: for every list of security issues, the security score is
`max 0 (100 - Σ penalty)` with penalty 25/10/5 for HIGH/MEDIUM/LOW, hence
always in `[0, 100]`; and the risk level boundaries are exact:
`≥ 90 → LOW`, `70..89 → MEDIUM`, `50..69 → HIGH`, `≤ 49 → CRITICAL`. -/
theorem c4_security_score_and_risk_level (issues : List SecIssue) :
    calculate_security_score issues = max 0 (100 - (issues.map sevPenalty).sum) ∧
    0 ≤ calculate_security_score issues ∧ calculate_security_score issues ≤ 100 ∧
    (∀ s : Int,
      (90 ≤ s → get_risk_level s = "LOW") ∧
      (70 ≤ s ∧ s ≤ 89 → get_risk_level s = "MEDIUM") ∧
      (50 ≤ s ∧ s ≤ 69 → get_risk_level s = "HIGH") ∧
      (s ≤ 49 → get_risk_level s = "CRITICAL")) := by
  have hform : calculate_security_score issues = max 0 (100 - (issues.map sevPenalty).sum) := by
    simp only [calculate_security_score, foldl_sec_penalty]
  have hnn := sum_sevPenalty_nonneg issues
  refine ⟨hform, by rw [hform]; omega, by rw [hform]; omega, ?_⟩
  intro s
  refine ⟨fun h => ?_, fun h => ?_, fun h => ?_, fun h => ?_⟩ <;>
    (simp only [get_risk_level]; split_ifs <;> first | rfl | omega)

/-- C4 witness: the theorem instantiated at concrete scores and at the
empty issue list. -/
theorem c4_witness :
    get_risk_level 90 = "LOW" ∧ get_risk_level 89 = "MEDIUM" ∧
    get_risk_level 70 = "MEDIUM" ∧ get_risk_level 69 = "HIGH" ∧
    get_risk_level 50 = "HIGH" ∧ get_risk_level 49 = "CRITICAL" :=
  ⟨((c4_security_score_and_risk_level []).2.2.2 90).1 (by norm_num),
   ((c4_security_score_and_risk_level []).2.2.2 89).2.1 (by norm_num),
   ((c4_security_score_and_risk_level []).2.2.2 70).2.1 (by norm_num),
   ((c4_security_score_and_risk_level []).2.2.2 69).2.2.1 (by norm_num),
   ((c4_security_score_and_risk_level []).2.2.2 50).2.2.1 (by norm_num),
   ((c4_security_score_and_risk_level []).2.2.2 49).2.2.2 (by norm_num)⟩

/-- C5 counterexample: on the source `"eval(user_input)"` the checker
reports TWO high-severity issues (the regex pattern `eval_usage` AND the
AST check `dangerous_function_eval`), so the security score is 50, not 75,
refuting the claim of exactly one HIGH issue with score 75. -/
theorem c5_counterexample :
    (analyze_security srcEval).high_risk_count = 2 ∧
    (analyze_security srcEval).security_score = 50 ∧
    ¬((analyze_security srcEval).high_risk_count = 1 ∧
      (analyze_security srcEval).security_score = 75) := by
  refine ⟨rfl, rfl, ?_⟩
  intro h
  have h2 : (50 : Int) = 75 := h.2
  exact absurd h2 (by norm_num)

/-- C5 amended: the source `"eval(user_input)"` yields exactly two
HIGH-severity issues — the regex issue `eval_usage` and the AST issue
`dangerous_function_eval`, both indicating the `eval` call — and the
security score is 50 (risk level HIGH). -/
theorem c5_amended_eval_scenario :
    analyze_security srcEval =
      { security_issues :=
          [⟨"eval_usage", 1, .HIGH,
            "Use of eval() function detected - major security risk",
            "Avoid eval(). Use literal_eval() for safe evaluation or ast.parse() for code analysis",
            some "eval(user_input)"⟩,
           ⟨"dangerous_function_eval", 1, .HIGH,
            "Dangerous function eval() usage detected",
            "Avoid using eval() as it can execute arbitrary code", none⟩]
        security_score := 50
        risk_level := "HIGH"
        total_vulnerabilities := 2
        high_risk_count := 2
        medium_risk_count := 0
        low_risk_count := 0 } := rfl

/-- C7: `analyze` fails with the prefixed parser message exactly on parse
failure (and always succeeds otherwise), while `analyze_security`
tolerates parse failure: it returns the same-shaped result built from the
line-regex issues alone, with only the tree-based checks skipped. -/
theorem c7_parse_error_handling :
    (∀ (lines : List String) (msg : String),
        analyze ⟨lines, none, msg⟩ = .error ("Invalid Python syntax: " ++ msg)) ∧
    (∀ (lines : List String) (tree : List PyNode) (msg : String),
        ∃ r, analyze ⟨lines, some tree, msg⟩ = .ok r) ∧
    (∀ (lines : List String) (msg : String),
        analyze_security ⟨lines, none, msg⟩ = buildSecurityResult (secScan 1 lines)) := by
  refine ⟨fun lines msg => rfl, fun lines tree msg => ⟨_, rfl⟩, fun lines msg => ?_⟩
  simp [analyze_security]

/-- C8 counterexample: on `"x = list(range(10))"` (one
`unnecessary_list_conversion` issue) the computed total energy is 0.1
(base only: the issue loop has no branch for that type), while the
claimed formula — a flat 2.0 penalty for each inefficiency-pattern
issue — gives 2.1. -/
theorem c8_counterexample :
    analyze srcListConv = .ok resListConv ∧
    (calculate_energy_consumption resListConv).total_energy_uj = 1 / 10 ∧
    claimEnergyTotal resListConv = 21 / 10 ∧
    (calculate_energy_consumption resListConv).total_energy_uj ≠ claimEnergyTotal resListConv := by
  have h1 : (calculate_energy_consumption resListConv).total_energy_uj = 1 / 10 := by
    simp only [calculate_energy_consumption, foldl_issuePenalty]
    norm_num [resListConv, mkListConvIssue, issuePenalty, cost_function_call,
      cost_while_loop_iteration, cost_for_loop_iteration, cost_import_statement]
  have h2 : claimEnergyTotal resListConv = 21 / 10 := by
    norm_num [claimEnergyTotal, resListConv, mkListConvIssue, claimEnergyPenalty]
  refine ⟨rfl, h1, h2, ?_⟩
  rw [h1, h2]
  norm_num

/-- C8 amended: for every `AnalysisResult` the total energy is
`lines_of_code*0.1 + function_count*0.5 + while_loop_count*2.0*10 +
for_loop_count*1.5*10 + import_count*0.3` plus a flat per-issue penalty of
5.0 per while-loop issue, 2.0 per `inefficient_range_len` issue and 0.5
per unused-import issue (`unnecessary_list_conversion` issues add
nothing); the five-category breakdown is retrievable from the result and
sums to the total. -/
theorem c8_amended_energy_formula (r : AnalysisResult) :
    (calculate_energy_consumption r).total_energy_uj =
      (r.lines_of_code : ℚ) * 0.1 + (r.function_count : ℚ) * 0.5 +
      (r.while_loop_count : ℚ) * 2.0 * 10 + (r.for_loop_count : ℚ) * 1.5 * 10 +
      (r.import_count : ℚ) * 0.3 + (r.issues.map issuePenalty).sum ∧
    (calculate_energy_consumption r).base_energy = (r.lines_of_code : ℚ) * 0.1 ∧
    (calculate_energy_consumption r).function_energy = (r.function_count : ℚ) * 0.5 ∧
    (calculate_energy_consumption r).loop_energy =
      (r.while_loop_count : ℚ) * 2.0 * 10 + (r.for_loop_count : ℚ) * 1.5 * 10 ∧
    (calculate_energy_consumption r).import_energy = (r.import_count : ℚ) * 0.3 ∧
    (calculate_energy_consumption r).inefficiency_penalty = (r.issues.map issuePenalty).sum ∧
    (calculate_energy_consumption r).base_energy +
      (calculate_energy_consumption r).function_energy +
      (calculate_energy_consumption r).loop_energy +
      (calculate_energy_consumption r).import_energy +
      (calculate_energy_consumption r).inefficiency_penalty =
      (calculate_energy_consumption r).total_energy_uj := by
  simp only [calculate_energy_consumption, foldl_issuePenalty, zero_add,
    cost_function_call, cost_while_loop_iteration, cost_for_loop_iteration,
    cost_import_statement]
  refine ⟨?_, ?_, ?_, ?_, ?_, ?_, ?_⟩ <;> first | trivial | ring

/-- C10: for every `AnalysisResult` whose `lines_of_code` field is 0 (as
produced, e.g., from the empty source), `get_efficiency_rating` hits the
unguarded division by zero (`ZeroDivisionError`) instead of returning a
rating string: the dict-lookup default `1` applies only to an absent key,
never to the value `0`. -/
theorem c10_efficiency_rating_div_by_zero (r : AnalysisResult)
    (h : r.lines_of_code = 0) :
    get_efficiency_rating r = .error "ZeroDivisionError: division by zero" := by
  simp [get_efficiency_rating, h]

/-- C10 witness: the empty source analyzes to `lines_of_code = 0`, on
which the rating function fails. -/
theorem c10_witness :
    analyze srcEmpty = .ok resEmpty ∧
    get_efficiency_rating resEmpty = .error "ZeroDivisionError: division by zero" :=
  ⟨rfl, c10_efficiency_rating_div_by_zero resEmpty rfl⟩

/-- C1: for every syntactically valid source, the issue list of the
analysis result has exactly `while_loop_count + inefficient_patterns_count
+ unused_imports_count` entries: each counted occurrence yields exactly
one issue and the final sort drops nothing. -/
theorem c1_issues_length_eq_counts (src : PySource) (r : AnalysisResult)
    (h : analyze src = .ok r) :
    r.issues.length =
      r.while_loop_count + r.inefficient_patterns_count + r.unused_imports_count := by
  cases hp : src.parsed with
  | none => simp [analyze, hp] at h
  | some tree =>
    simp only [analyze, hp, Except.ok.injEq] at h
    subst h
    simp only
    rw [compile_issues_length]
    have hv := visitList_while_inv initVisitor tree (by simp [initVisitor])
    omega

/-- C1 witness: the theorem applied to a concrete source with one while
loop. -/
theorem c1_witness :
    resA.issues.length =
      resA.while_loop_count + resA.inefficient_patterns_count + resA.unused_imports_count :=
  c1_issues_length_eq_counts srcA resA rfl

/-- C2: for every syntactically valid source, the issue list is sorted
non-decreasing by `line`, and on equal lines the merge-category order is
preserved (while-loop issues, then inefficiency-pattern issues, then
unused-import issues), because the sort is stable over the append order. -/
theorem c2_issues_sorted_with_category_ties (src : PySource) (r : AnalysisResult)
    (h : analyze src = .ok r) :
    r.issues.Pairwise
      (fun a b => a.line < b.line ∨ (a.line = b.line ∧ categoryRank a ≤ categoryRank b)) := by
  cases hp : src.parsed with
  | none => simp [analyze, hp] at h
  | some tree =>
    simp only [analyze, hp, Except.ok.injEq] at h
    subst h
    exact compile_issues_sorted_ties _ _ _
      (find_inefficient_rank src.lines) (find_unused_rank src.lines tree)

/-- C2 witness: a concrete source whose line 1 carries both a while-loop
issue and a `range(len(` issue — the tie is ordered while-loop first. -/
theorem c2_witness :
    resB.issues.Pairwise
      (fun a b => a.line < b.line ∨ (a.line = b.line ∧ categoryRank a ≤ categoryRank b)) :=
  c2_issues_sorted_with_category_ties srcB resB rfl

/-- C6: an import collected from the tree is flagged unused exactly when
its effective name (the truthy alias if present, else the bare name) does
not occur as a substring of the source text with the first physical line
removed (the lines after line 1, joined by a space — line 1 is dropped
unconditionally, not the import's own line); and on
`"import os\nprint('hi')\n"` the import `os` on line 1 is flagged. -/
theorem c6_unused_import_flag_iff (lines : List String) (tree : List PyNode)
    (imp : ImportEntry) (himp : imp ∈ collectImports tree) :
    (mkUnusedImportIssue (effName imp) imp.line ∈ find_unused_imports lines tree ↔
      occursIn (effName imp).data (codeBody lines).data = false) ∧
    find_unused_imports linesOs treeOs = [mkUnusedImportIssue "os" 1] := by
  refine ⟨⟨?_, ?_⟩, rfl⟩
  · intro hmem
    simp only [find_unused_imports, List.mem_filterMap] at hmem
    rcases hmem with ⟨imp', _, heq⟩
    split at heq
    · rename_i hcond
      simp only [Option.some.injEq] at heq
      have hname : effName imp' = effName imp := mkUnusedImportIssue_inj heq
      simp only [Bool.and_eq_true, Bool.not_eq_true', decide_eq_true_eq] at hcond
      rw [← hname]
      exact hcond.2
    · cases heq
  · intro hocc
    by_cases hn : effName imp = ""
    · exfalso
      rw [hn] at hocc
      have : occursIn ("" : String).data (codeBody lines).data = true := occursIn_nil _
      rw [this] at hocc
      cases hocc
    · simp only [find_unused_imports, List.mem_filterMap]
      refine ⟨imp, himp, ?_⟩
      rw [if_pos]
      simp [hn, hocc]

/-- C6 witness: the theorem applied to the Scenario C source. -/
theorem c6_witness :
    mkUnusedImportIssue (effName impOs) impOs.line ∈ find_unused_imports linesOs treeOs :=
  ((c6_unused_import_flag_iff linesOs treeOs impOs (by decide)).1).mpr (by decide)

/-- C9 counterexample: eleven one-line `def`s give a source with no
issues, no loops and no imports, yet `complexity_score = 24` (the formula
includes `nested_depth*2`, not just `function_count*2`) and the green
score is 92 (the complexity penalty fires), refuting both conclusions of
the claim. -/
theorem c9_counterexample :
    analyze srcNested = .ok resNested ∧ resNested.issues = [] ∧
    resNested.while_loop_count = 0 ∧ resNested.for_loop_count = 0 ∧
    resNested.import_count = 0 ∧
    calculate_green_score resNested = 92 ∧ resNested.complexity_score = 24 ∧
    ¬(calculate_green_score resNested = 100 ∧
      resNested.complexity_score = resNested.function_count * 2) := by
  refine ⟨rfl, rfl, rfl, rfl, rfl, rfl, rfl, ?_⟩
  intro h
  have h1 : (92 : Int) = 100 := h.1
  exact absurd h1 (by norm_num)

/-- C9 amended: for every syntactically valid source with no issues, zero
loops and zero imports, `complexity_score = function_count*2 +
nested_depth*2` (the loop terms of the general formula vanish; the
`nested_depth` term remains and is hidden in the claim's "only"), and the
green score is 100 if and only if `complexity_score ≤ 20` (above 20 the
complexity penalty is positive and alone lowers the score). -/
theorem c9_amended_complexity_and_green (lines : List String) (tree : List PyNode)
    (msg : String) (r : AnalysisResult)
    (h : analyze ⟨lines, some tree, msg⟩ = .ok r)
    (hiss : r.issues = []) (hw : r.while_loop_count = 0) (hf : r.for_loop_count = 0)
    (hi : r.import_count = 0) :
    r.complexity_score =
      r.function_count * 2 + (visitList initVisitor tree).nested_depth * 2 ∧
    (calculate_green_score r = 100 ↔ r.complexity_score ≤ 20) := by
  simp only [analyze, Except.ok.injEq] at h
  subst h
  simp only at hiss hw hf hi ⊢
  have hlen := congrArg List.length hiss
  rw [compile_issues_length] at hlen
  simp only [List.length_nil] at hlen
  have hp0 : (find_inefficient_patterns lines).length = 0 := by omega
  have hu0 : (find_unused_imports lines tree).length = 0 := by omega
  constructor
  · simp only [calculate_complexity]
    omega
  · simp only [calculate_green_score, calculate_complexity]
    rw [hw, hp0, hu0]
    split_ifs with hif <;> push_cast at hif ⊢ <;> omega

/-- C9 witness: the amended theorem applied to `"def f(): pass"`
(one function, nesting depth 1, complexity 4, green score 100). -/
theorem c9_witness :
    resE.complexity_score =
      resE.function_count * 2 + (visitList initVisitor treeE).nested_depth * 2 ∧
    calculate_green_score resE = 100 :=
  have h := c9_amended_complexity_and_green ["def f(): pass"] treeE "" resE rfl rfl rfl rfl rfl
  ⟨h.1, h.2.mpr (by decide)⟩

end GreenCode
